import Mathlib

/-!
Verification of the TI boot-stage-record library (src/bootrecord.c,
src/bootrecord.h) against its natural-language specification.

Shallow embedding notes:
* C machine integers (`uint32_t`, `uint64_t`) are modelled as `Nat`.  The
  C code performs no arithmetic that can wrap: `size - 16` is computed only
  after the guard `size >= 48`, and `record_count + 1` stays at most
  `possible_records <= (size - 16) / 32 < 2^32`, so plain `Nat` arithmetic
  coincides with the machine arithmetic on all reachable values.
* Pointers carry no address arithmetic in this code, only null tests and
  access to the one buffer, so the caller's buffer pointer is modelled as a
  `Bool` (`true` = non-null) and the global's two pointers
  (`memory_base`, `records`), which are always both null or both equal to
  the same buffer address, are modelled as a single `Option` holding the
  pointed-to buffer contents.
* A C string (the `name` argument of `boot_record_log_profile`) is
  modelled as `Option (List Nat)`: `none` is the null pointer, and the
  list holds the byte values strictly before the terminating 0 (a C string
  has no interior null bytes).
* The clock `boot_record_get_timestamp()` is an external weak symbol; each
  operation takes the value `now` that its single clock read returns as an
  explicit argument.
-/

/-- Status code type from bootrecord.h (`typedef int32_t boot_record_status_t`). -/
abbrev boot_record_status_t := Int

/-- Source: `#define BOOT_RECORD_SUCCESS (0)`. -/
def BOOT_RECORD_SUCCESS : boot_record_status_t := 0

/-- Source: `#define BOOT_RECORD_ERR_INVALID_PARAMS (-1)`. -/
def BOOT_RECORD_ERR_INVALID_PARAMS : boot_record_status_t := -1

/-- Source: `#define BOOT_RECORD_ERR_INSUFFICIENT_MEM (-2)`. -/
def BOOT_RECORD_ERR_INSUFFICIENT_MEM : boot_record_status_t := -2

/-- Source: `#define BOOT_RECORD_ERR_OVERFLOW (-3)`. -/
def BOOT_RECORD_ERR_OVERFLOW : boot_record_status_t := -3

/-- One profile entry: `char name[24]; uint64_t time;`.  `name` is the full
24-byte array (as byte values), `time` the `uint64_t` timestamp. -/
structure boot_record_profile_t where
  name : List Nat
  time : Nat
deriving DecidableEq, Repr

/-- The value of `sizeof(boot_record_profile_t)`: 24 bytes of `name` plus an 8-byte
aligned `uint64_t` = 32 bytes. -/
def sizeof_profile : Nat := 32

/-- The caller's buffer viewed through `boot_stage_record_t`
(`uint32_t record_id; uint32_t record_count; uint64_t start_time;
boot_record_profile_t profiles[0];`).  `profiles` holds the
`possible_records` whole entry slots that fit after the header, and
`slack` the remaining bytes of the supplied buffer past the last whole
slot — part of the region zero-filled by `memset` in `boot_record_init`
and never touched otherwise. -/
structure boot_stage_record_t where
  record_id : Nat
  record_count : Nat
  start_time : Nat
  profiles : List boot_record_profile_t
  slack : List Nat
deriving DecidableEq, Repr

/-- The value of `sizeof(boot_stage_record_t)`: two `uint32_t` plus one `uint64_t`
(8-aligned, flexible array member adds nothing) = 16 bytes. -/
def sizeof_stage : Nat := 16

/-- The global `static boot_records_t gboot_records_config`.
`records` is `none` when the `memory_base`/`records` pointers are null and
`some buf` (the buffer contents) when they point at the caller's buffer. -/
structure boot_records_t where
  records : Option boot_stage_record_t
  memory_size : Nat
  possible_records : Nat
deriving DecidableEq, Repr

/-- The zero-initialised static global before any call. -/
def gboot_records_config0 : boot_records_t :=
  { records := none, memory_size := 0, possible_records := 0 }

/-- An all-zero profile slot, as left by `memset(memory_addr, 0, size)`. -/
def zero_profile : boot_record_profile_t :=
  { name := List.replicate 24 0, time := 0 }

/-- The caller's buffer of `size` bytes just after `memset(memory_addr, 0,
size)`, viewed through `boot_stage_record_t`: all header fields zero,
`possible` zeroed entry slots, and the remaining `size - 16 - 32 *
possible` bytes of zeroed slack. -/
def zeroed_buffer (size possible : Nat) : boot_stage_record_t :=
  { record_id := 0
    record_count := 0
    start_time := 0
    profiles := List.replicate possible zero_profile
    slack := List.replicate (size - sizeof_stage - sizeof_profile * possible) 0 }

/-- Function `boot_record_init(stage_id, memory_addr, size)` from bootrecord.c.
`memory_addr` is `true` iff the caller's pointer is non-null; `now` is the
value returned by the one `boot_record_get_timestamp()` call; the global
`gboot_records_config` is threaded explicitly.  Returns the status and the
global's new value (the buffer contents live inside it, see
`boot_records_t.records`). -/
def boot_record_init (stage_id : Nat) (memory_addr : Bool) (size : Nat)
    (now : Nat) (cfg : boot_records_t) : boot_record_status_t × boot_records_t :=
  if memory_addr = false ∨ size < sizeof_stage + sizeof_profile then
    (BOOT_RECORD_ERR_INVALID_PARAMS, cfg)
  else
    -- memset(memory_addr, 0, size); memset(&gboot_records_config, 0, ...);
    -- then memory_base/records are bound and possible_records computed.
    let possible := (size - sizeof_stage) / sizeof_profile
    let cfg1 : boot_records_t :=
      { records := some (zeroed_buffer size possible)
        memory_size := size
        possible_records := possible }
    if possible = 0 then
      (BOOT_RECORD_ERR_INSUFFICIENT_MEM, cfg1)
    else
      -- stage->record_id = stage_id; stage->record_count = 0;
      -- stage->start_time = boot_record_get_timestamp();
      let stage : boot_stage_record_t :=
        { zeroed_buffer size possible with
            record_id := stage_id, record_count := 0, start_time := now }
      (BOOT_RECORD_SUCCESS, { cfg1 with records := some stage })

/-- Effect of `strncpy(profile->name, name, 23); profile->name[23] = 0;` applied to a
24-byte destination: the first `min (name.length) 23` bytes come from
`name`, everything after (including byte 23) is 0. -/
def strncpy_name (name : List Nat) : List Nat :=
  name.take 23 ++ List.replicate (24 - min name.length 23) 0

/-- Function `boot_record_log_profile(name)` from bootrecord.c.  `name = none` is
the null pointer; `now` is the value of the one
`boot_record_get_timestamp()` call. -/
def boot_record_log_profile (name : Option (List Nat)) (now : Nat)
    (cfg : boot_records_t) : boot_record_status_t × boot_records_t :=
  match name with
  | none => (BOOT_RECORD_ERR_INVALID_PARAMS, cfg)
  | some label =>
    match cfg.records with
    | none =>
      -- if (!gboot_records_config.records || !gboot_records_config.memory_base)
      (BOOT_RECORD_ERR_INVALID_PARAMS, cfg)
    | some stage =>
      if cfg.possible_records ≤ stage.record_count then
        (BOOT_RECORD_ERR_OVERFLOW, cfg)
      else
        let profile : boot_record_profile_t :=
          { name := strncpy_name label, time := now }
        let stage1 : boot_stage_record_t :=
          { stage with
              profiles := stage.profiles.set stage.record_count profile
              record_count := stage.record_count + 1 }
        (BOOT_RECORD_SUCCESS, { cfg with records := some stage1 })

/-- One API call, for reasoning about call sequences: either
`boot_record_init` or `boot_record_log_profile`, with the clock value its
single timestamp read returns. -/
inductive ApiCall where
  | init (stage_id : Nat) (memory_addr : Bool) (size : Nat) (now : Nat)
  | log (name : Option (List Nat)) (now : Nat)
deriving DecidableEq, Repr

/-- The status and new global state of one call. -/
def api_step (c : ApiCall) (cfg : boot_records_t) :
    boot_record_status_t × boot_records_t :=
  match c with
  | .init stage_id memory_addr size now =>
      boot_record_init stage_id memory_addr size now cfg
  | .log name now => boot_record_log_profile name now cfg

/-- Run a sequence of calls from a given global state. -/
def api_run_from (cfg : boot_records_t) (cs : List ApiCall) : boot_records_t :=
  cs.foldl (fun s c => (api_step c s).2) cfg

/-- Run a sequence of calls from the zero-initialised global. -/
def api_run (cs : List ApiCall) : boot_records_t :=
  api_run_from gboot_records_config0 cs

/-- The value of the global after a successful `boot_record_init(stage_id,
buf, size)` whose clock read returned `now`: buffer zero-filled, then the
header fields written.  (Derived from the success branch of
`boot_record_init`; independent of the previous global state.) -/
def init_result_state (stage_id size now : Nat) : boot_records_t :=
  let possible := (size - sizeof_stage) / sizeof_profile
  let stage : boot_stage_record_t :=
    { zeroed_buffer size possible with
        record_id := stage_id, record_count := 0, start_time := now }
  { records := some stage, memory_size := size, possible_records := possible }

/-- Decidable check that, running `cs` call by call from `cfg`, no
`boot_record_init` call in the sequence returns `Success`. -/
def no_successful_init_from (cfg : boot_records_t) : List ApiCall → Bool
  | [] => true
  | c :: cs =>
    (match c with
     | .init stage_id memory_addr size now =>
         decide ((boot_record_init stage_id memory_addr size now cfg).1 ≠
           BOOT_RECORD_SUCCESS)
     | .log _ _ => true) &&
    no_successful_init_from (api_step c cfg).2 cs

/-- A concrete full store for witnesses: a 48-byte (capacity-1) buffer
initialised at time 0 and filled by one append at time 1. -/
def full_demo_cfg : boot_records_t :=
  api_run [ApiCall.init 1 true 48 0, ApiCall.log (some [97]) 1]

/-- The stage record held by `full_demo_cfg`. -/
def full_demo_stage : boot_stage_record_t :=
  { record_id := 1, record_count := 1, start_time := 0,
    profiles := [{ name := strncpy_name [97], time := 1 }], slack := [] }

/-- The state invariant of the global: whenever a buffer is bound, its
entry count never exceeds the computed capacity, and the buffer holds
exactly `possible_records` entry slots. -/
def store_inv (cfg : boot_records_t) : Prop :=
  ∀ stage, cfg.records = some stage →
    stage.record_count ≤ cfg.possible_records ∧
    stage.profiles.length = cfg.possible_records

/- ======================  helper lemmas  ====================== -/

/-- Once `size ≥ 48`, integer division gives `(size - 16) / 32 ≥ 1`: the
capacity-zero branch of `boot_record_init` is dead code. -/
theorem possible_records_pos (size : Nat) (h : sizeof_stage + sizeof_profile ≤ size) :
    0 < (size - sizeof_stage) / sizeof_profile := by
  have h32 : sizeof_profile ≤ size - sizeof_stage := by
    simp only [sizeof_stage, sizeof_profile] at h ⊢; omega
  exact Nat.div_pos h32 (by simp [sizeof_profile])

/-- The status of `boot_record_init` depends only on the pointer's
nullness and on `size`: `InvalidParams` iff the guard fires, `Success`
otherwise. -/
theorem boot_record_init_status (stage_id : Nat) (memory_addr : Bool)
    (size now : Nat) (cfg : boot_records_t) :
    (boot_record_init stage_id memory_addr size now cfg).1 =
      (if memory_addr = false ∨ size < sizeof_stage + sizeof_profile then
        BOOT_RECORD_ERR_INVALID_PARAMS else BOOT_RECORD_SUCCESS) := by
  unfold boot_record_init
  by_cases hg : memory_addr = false ∨ size < sizeof_stage + sizeof_profile
  · simp [hg]
  · have hsz : sizeof_stage + sizeof_profile ≤ size := by
      push_neg at hg
      omega
    have := possible_records_pos size hsz
    simp only [hg, if_false]
    simp [Nat.pos_iff_ne_zero.mp this]

/-- On `Success`, `boot_record_init` leaves the global exactly in
`init_result_state stage_id size now`, whatever it held before, and the
success happens exactly when the pointer is non-null and `size ≥ 48`. -/
theorem boot_record_init_success_iff (stage_id : Nat) (memory_addr : Bool)
    (size now : Nat) (cfg : boot_records_t) :
    ((boot_record_init stage_id memory_addr size now cfg).1 = BOOT_RECORD_SUCCESS ↔
      memory_addr = true ∧ sizeof_stage + sizeof_profile ≤ size) ∧
    ((boot_record_init stage_id memory_addr size now cfg).1 = BOOT_RECORD_SUCCESS →
      (boot_record_init stage_id memory_addr size now cfg).2 =
        init_result_state stage_id size now) := by
  have hstat := boot_record_init_status stage_id memory_addr size now cfg
  by_cases hg : memory_addr = false ∨ size < sizeof_stage + sizeof_profile
  · rw [hstat]
    constructor
    · simp only [hg, if_true]
      constructor
      · intro h; exact absurd h (by decide)
      · rintro ⟨h1, h2⟩
        rcases hg with h | h
        · rw [h1] at h; exact absurd h (by decide)
        · omega
    · intro h
      simp only [hg, if_true] at h
      exact absurd h (by decide)
  · push_neg at hg
    obtain ⟨hmem, hsz⟩ := hg
    have hmem' : memory_addr = true := by
      cases memory_addr
      · exact absurd rfl hmem
      · rfl
    have hpos := possible_records_pos size hsz
    constructor
    · rw [hstat]
      simp only [hmem', hsz]
      simp [Nat.not_lt.mpr hsz]
    · intro _
      unfold boot_record_init
      simp only [hmem', Nat.not_lt.mpr hsz]
      simp [Nat.pos_iff_ne_zero.mp hpos, init_result_state]

/-- C1: every `boot_record_init(stage_id, buf, size)` that returns
`Success` (non-null `buf`, `size ≥ 48`) stores
`possible_records = (size - 16) / 32`; in particular `size = 1024` gives
31 and `size = 48` gives 1. -/
theorem C1_init_capacity_formula (stage_id size now : Nat) (cfg : boot_records_t)
    (h : (boot_record_init stage_id true size now cfg).1 = BOOT_RECORD_SUCCESS) :
    (boot_record_init stage_id true size now cfg).2.possible_records = (size - 16) / 32 ∧
    (size = 1024 → (boot_record_init stage_id true size now cfg).2.possible_records = 31) ∧
    (size = 48 → (boot_record_init stage_id true size now cfg).2.possible_records = 1) := by
  have hres := (boot_record_init_success_iff stage_id true size now cfg).2 h
  rw [hres]
  refine ⟨rfl, ?_, ?_⟩ <;> rintro rfl <;> rfl

/-- C1 witness: a concrete successful init with `size = 1024`. -/
theorem C1_init_capacity_formula_witness :
    (boot_record_init 7 true 1024 5 gboot_records_config0).1 = BOOT_RECORD_SUCCESS ∧
    (boot_record_init 7 true 1024 5 gboot_records_config0).2.possible_records = (1024 - 16) / 32 ∧
    (boot_record_init 7 true 1024 5 gboot_records_config0).2.possible_records = 31 := by
  have h : (boot_record_init 7 true 1024 5 gboot_records_config0).1 = BOOT_RECORD_SUCCESS := by
    decide
  have := C1_init_capacity_formula 7 1024 5 gboot_records_config0 h
  exact ⟨h, this.1, this.2.1 rfl⟩

/-- C4: `boot_record_init` returns `InvalidParams` exactly when the buffer
pointer is null or `size < 48`; `init(1, buf, 16)`, `init(1, buf, 47)` and
`init(1, null, 1024)` give `InvalidParams`, `init(1, buf, 48)` gives
`Success`. -/
theorem C4_init_invalid_params_iff (stage_id : Nat) (memory_addr : Bool)
    (size now : Nat) (cfg : boot_records_t) :
    ((boot_record_init stage_id memory_addr size now cfg).1 =
        BOOT_RECORD_ERR_INVALID_PARAMS ↔ memory_addr = false ∨ size < 48) ∧
    (boot_record_init 1 true 16 now cfg).1 = BOOT_RECORD_ERR_INVALID_PARAMS ∧
    (boot_record_init 1 true 47 now cfg).1 = BOOT_RECORD_ERR_INVALID_PARAMS ∧
    (boot_record_init 1 false 1024 now cfg).1 = BOOT_RECORD_ERR_INVALID_PARAMS ∧
    (boot_record_init 1 true 48 now cfg).1 = BOOT_RECORD_SUCCESS := by
  refine ⟨?_, ?_, ?_, ?_, ?_⟩
  · rw [boot_record_init_status]
    by_cases hg : memory_addr = false ∨ size < sizeof_stage + sizeof_profile
    · simp only [hg, if_true]
      constructor
      · intro _
        rcases hg with h | h
        · exact Or.inl h
        · right; simpa [sizeof_stage, sizeof_profile] using h
      · intro _; trivial
    · simp only [hg, if_false]
      constructor
      · intro h; exact absurd h (by decide)
      · intro h
        push_neg at hg
        rcases h with h | h
        · exact absurd h hg.1
        · exact absurd h (by have := hg.2; simp only [sizeof_stage, sizeof_profile] at this; omega)
  · rw [boot_record_init_status]; simp [sizeof_stage, sizeof_profile]
  · rw [boot_record_init_status]; simp [sizeof_stage, sizeof_profile]
  · rw [boot_record_init_status]; simp [sizeof_stage, sizeof_profile]
  · rw [boot_record_init_status]; simp [sizeof_stage, sizeof_profile]

/-- C6: `boot_record_init` never returns `InsufficientMemory`: once the
minimum-size check passes, `(size - 16) / 32 ≥ 1`, so the capacity-zero
branch is unreachable and the result is always `Success` or
`InvalidParams`. -/
theorem C6_insufficient_mem_unreachable (stage_id : Nat) (memory_addr : Bool)
    (size now : Nat) (cfg : boot_records_t) :
    (boot_record_init stage_id memory_addr size now cfg).1 ≠
      BOOT_RECORD_ERR_INSUFFICIENT_MEM ∧
    (sizeof_stage + sizeof_profile ≤ size → 1 ≤ (size - 16) / 32) ∧
    ((boot_record_init stage_id memory_addr size now cfg).1 = BOOT_RECORD_SUCCESS ∨
     (boot_record_init stage_id memory_addr size now cfg).1 =
       BOOT_RECORD_ERR_INVALID_PARAMS) := by
  have hstat := boot_record_init_status stage_id memory_addr size now cfg
  refine ⟨?_, ?_, ?_⟩
  · rw [hstat]
    by_cases hg : memory_addr = false ∨ size < sizeof_stage + sizeof_profile <;>
      simp [hg] <;> decide
  · intro h
    have := possible_records_pos size h
    simpa [sizeof_stage, sizeof_profile] using this
  · rw [hstat]
    by_cases hg : memory_addr = false ∨ size < sizeof_stage + sizeof_profile <;>
      simp [hg]

/-- When the label is null or the global's buffer pointers are null,
`boot_record_log_profile` returns `InvalidParams` and changes nothing. -/
theorem log_profile_invalid (name : Option (List Nat)) (now : Nat)
    (cfg : boot_records_t) (h : name = none ∨ cfg.records = none) :
    boot_record_log_profile name now cfg = (BOOT_RECORD_ERR_INVALID_PARAMS, cfg) := by
  unfold boot_record_log_profile
  rcases h with h | h
  · subst h; rfl
  · cases name with
    | none => rfl
    | some label => rw [h]

/-- C8: `boot_record_log_profile` returns `InvalidParams` and changes no
state whenever the label is null or the store has never been successfully
initialised (no buffer bound); in particular `log(null)` fails and
`log("x")` before any successful init fails. -/
theorem C8_log_invalid_params (name : Option (List Nat)) (now : Nat)
    (cfg : boot_records_t) (h : name = none ∨ cfg.records = none) :
    (boot_record_log_profile name now cfg).1 = BOOT_RECORD_ERR_INVALID_PARAMS ∧
    (boot_record_log_profile name now cfg).2 = cfg := by
  rw [log_profile_invalid name now cfg h]
  exact ⟨rfl, rfl⟩

/-- C8 witness: `log("x")` on the zero-initialised global, and `log(null)`
on an initialised one. -/
theorem C8_log_invalid_params_witness :
    ((boot_record_log_profile (some [120]) 3 gboot_records_config0).1 =
        BOOT_RECORD_ERR_INVALID_PARAMS ∧
      (boot_record_log_profile (some [120]) 3 gboot_records_config0).2 =
        gboot_records_config0) ∧
    ((boot_record_log_profile none 3 (init_result_state 1 1024 0)).1 =
        BOOT_RECORD_ERR_INVALID_PARAMS ∧
      (boot_record_log_profile none 3 (init_result_state 1 1024 0)).2 =
        init_result_state 1 1024 0) :=
  ⟨C8_log_invalid_params (some [120]) 3 gboot_records_config0 (Or.inr rfl),
   C8_log_invalid_params none 3 (init_result_state 1 1024 0) (Or.inl rfl)⟩

/-- C2: on an Active store with spare capacity and a non-null label,
`boot_record_log_profile` succeeds, writes the new entry at index
`record_count` with the label truncated to at most 23 bytes followed by
zero bytes (null terminator and padding) and the clock value as its time,
and increments `record_count` by exactly one, so successive successful
calls fill indices 0, 1, 2, … in call order. -/
theorem C2_log_appends_in_order (cfg : boot_records_t)
    (stage : boot_stage_record_t) (label : List Nat) (now : Nat)
    (hrec : cfg.records = some stage)
    (hlen : stage.profiles.length = cfg.possible_records)
    (hcount : stage.record_count < cfg.possible_records) :
    (boot_record_log_profile (some label) now cfg).1 = BOOT_RECORD_SUCCESS ∧
    ∃ stage1,
      (boot_record_log_profile (some label) now cfg).2.records = some stage1 ∧
      stage1.record_count = stage.record_count + 1 ∧
      stage1.profiles.get? stage.record_count =
        some { name := label.take 23 ++ List.replicate (24 - min label.length 23) 0,
               time := now } ∧
      (label.take 23).length = min label.length 23 ∧
      (strncpy_name label).length = 24 := by
  have hle : ¬ cfg.possible_records ≤ stage.record_count := Nat.not_le.mpr hcount
  unfold boot_record_log_profile
  rw [hrec]
  simp only [hle, if_false]
  refine ⟨trivial, ?_⟩
  refine ⟨_, rfl, rfl, ?_, ?_, ?_⟩
  · rw [List.get?_set_eq_of_lt]
    · rfl
    · rw [hlen]; exact hcount
  · rw [List.length_take, Nat.min_comm]
  · unfold strncpy_name
    rw [List.length_append, List.length_take, List.length_replicate]
    omega

/-- C2 witness: log one entry on a freshly initialised store with an
overlong 25-byte label; the stored name keeps 23 bytes and pads. -/
theorem C2_log_appends_in_order_witness :
    ((init_result_state 1 1024 0).records = some
        { zeroed_buffer 1024 31 with record_id := 1, record_count := 0, start_time := 0 } ∧
      ({ zeroed_buffer 1024 31 with
          record_id := 1, record_count := 0, start_time := 0 } :
            boot_stage_record_t).profiles.length =
        (init_result_state 1 1024 0).possible_records ∧
      ({ zeroed_buffer 1024 31 with
          record_id := 1, record_count := 0, start_time := 0 } :
            boot_stage_record_t).record_count <
        (init_result_state 1 1024 0).possible_records) ∧
    (boot_record_log_profile (some (List.replicate 25 97)) 6
        (init_result_state 1 1024 0)).1 = BOOT_RECORD_SUCCESS := by
  have h1 : (init_result_state 1 1024 0).records = some
      { zeroed_buffer 1024 31 with record_id := 1, record_count := 0, start_time := 0 } := by
    decide
  have h2 : ({ zeroed_buffer 1024 31 with
      record_id := 1, record_count := 0, start_time := 0 } :
        boot_stage_record_t).profiles.length =
      (init_result_state 1 1024 0).possible_records := by decide
  have h3 : ({ zeroed_buffer 1024 31 with
      record_id := 1, record_count := 0, start_time := 0 } :
        boot_stage_record_t).record_count <
      (init_result_state 1 1024 0).possible_records := by decide
  exact ⟨⟨h1, h2, h3⟩,
    (C2_log_appends_in_order (init_result_state 1 1024 0) _ (List.replicate 25 97) 6
      h1 h2 h3).1⟩

/-- C10: every `boot_record_log_profile` call preserves the header fields
`record_id` and `start_time`, the slack bytes, and every profile slot
other than the one at index `record_count`; on any non-`Success` outcome
the whole global (header, entries, administrative fields) is exactly
unchanged, and the administrative fields `memory_size` and
`possible_records` are unchanged in every case. -/
theorem C10_log_frame (name : Option (List Nat)) (now : Nat)
    (cfg : boot_records_t) (stage : boot_stage_record_t)
    (h : cfg.records = some stage) :
    ∃ stage1,
      (boot_record_log_profile name now cfg).2.records = some stage1 ∧
      stage1.record_id = stage.record_id ∧
      stage1.start_time = stage.start_time ∧
      stage1.slack = stage.slack ∧
      (∀ i, i ≠ stage.record_count → stage1.profiles.get? i = stage.profiles.get? i) ∧
      ((boot_record_log_profile name now cfg).1 ≠ BOOT_RECORD_SUCCESS →
        (boot_record_log_profile name now cfg).2 = cfg) ∧
      (boot_record_log_profile name now cfg).2.memory_size = cfg.memory_size ∧
      (boot_record_log_profile name now cfg).2.possible_records = cfg.possible_records := by
  cases name with
  | none =>
    refine ⟨stage, ?_, rfl, rfl, rfl, fun i _ => rfl, fun _ => rfl, rfl, rfl⟩
    rw [log_profile_invalid none now cfg (Or.inl rfl)]
    exact h
  | some label =>
    unfold boot_record_log_profile
    rw [h]
    by_cases hle : cfg.possible_records ≤ stage.record_count
    · simp only [hle, if_true]
      exact ⟨stage, h, rfl, rfl, rfl, fun i _ => rfl, by trivial, by trivial, by trivial⟩
    · simp only [hle, if_false]
      refine ⟨_, rfl, rfl, rfl, rfl, ?_, ?_, by trivial, by trivial⟩
      · intro i hi
        exact List.get?_set_ne _ _ (fun hc => hi hc.symm)
      · intro hns; exact absurd rfl hns

/-- C10 witness: a successful log on a freshly initialised store. -/
theorem C10_log_frame_witness :
    (init_result_state 1 1024 0).records = some
      ({ zeroed_buffer 1024 31 with
          record_id := 1, record_count := 0, start_time := 0 }) ∧
    ∃ stage1,
      (boot_record_log_profile (some [104, 105]) 4 (init_result_state 1 1024 0)).2.records =
        some stage1 ∧
      stage1.record_id =
        ({ zeroed_buffer 1024 31 with
            record_id := 1, record_count := 0, start_time := 0 } :
          boot_stage_record_t).record_id := by
  have h : (init_result_state 1 1024 0).records = some
      ({ zeroed_buffer 1024 31 with
          record_id := 1, record_count := 0, start_time := 0 }) := by decide
  obtain ⟨stage1, h1, h2, -⟩ :=
    C10_log_frame (some [104, 105]) 4 (init_result_state 1 1024 0) _ h
  exact ⟨h, stage1, h1, h2⟩

/-- C7: every successful `boot_record_init` leaves the global in exactly
`init_result_state stage_id size now` — the buffer zero-filled (all entry
slots and slack bytes zero) and the header rewritten with
`record_id = stage_id`, `record_count = 0`, `start_time = now` — whatever
the previous state was, and an append immediately afterwards succeeds. -/
theorem C7_init_resets_state (stage_id : Nat) (memory_addr : Bool)
    (size now : Nat) (cfg : boot_records_t)
    (h : (boot_record_init stage_id memory_addr size now cfg).1 = BOOT_RECORD_SUCCESS) :
    (boot_record_init stage_id memory_addr size now cfg).2 =
      init_result_state stage_id size now ∧
    ∃ stage1,
      (boot_record_init stage_id memory_addr size now cfg).2.records = some stage1 ∧
      stage1.record_id = stage_id ∧
      stage1.record_count = 0 ∧
      stage1.start_time = now ∧
      stage1.profiles = List.replicate ((size - 16) / 32) zero_profile ∧
      stage1.slack = List.replicate (size - 16 - 32 * ((size - 16) / 32)) 0 ∧
      ∀ label now2,
        (boot_record_log_profile (some label) now2
          (boot_record_init stage_id memory_addr size now cfg).2).1 =
          BOOT_RECORD_SUCCESS := by
  obtain ⟨hiff, hstate⟩ := boot_record_init_success_iff stage_id memory_addr size now cfg
  have hres := hstate h
  obtain ⟨-, hsz⟩ := hiff.mp h
  have hpos := possible_records_pos size hsz
  refine ⟨hres, ?_⟩
  rw [hres]
  refine ⟨_, rfl, rfl, rfl, rfl, rfl, rfl, ?_⟩
  intro label now2
  unfold boot_record_log_profile init_result_state
  have hle : ¬ (size - sizeof_stage) / sizeof_profile ≤
      ({ zeroed_buffer size ((size - sizeof_stage) / sizeof_profile) with
          record_id := stage_id, record_count := 0, start_time := now } :
        boot_stage_record_t).record_count := by
    simpa using Nat.pos_iff_ne_zero.mp hpos
  simp only [hle, if_false]

/-- C7 witness: re-init after a store was filled to capacity and
overflowed; appends succeed again. -/
theorem C7_init_resets_state_witness :
    (api_run [ApiCall.init 1 true 48 0, ApiCall.log (some [97]) 1,
        ApiCall.log (some [98]) 2]).records = some
      ({ record_id := 1, record_count := 1, start_time := 0,
         profiles := [{ name := strncpy_name [97], time := 1 }], slack := [] }) ∧
    (boot_record_init 2 true 48 9
        (api_run [ApiCall.init 1 true 48 0, ApiCall.log (some [97]) 1,
          ApiCall.log (some [98]) 2])).1 = BOOT_RECORD_SUCCESS ∧
    (boot_record_init 2 true 48 9
        (api_run [ApiCall.init 1 true 48 0, ApiCall.log (some [97]) 1,
          ApiCall.log (some [98]) 2])).2 = init_result_state 2 48 9 := by
  have h : (boot_record_init 2 true 48 9
      (api_run [ApiCall.init 1 true 48 0, ApiCall.log (some [97]) 1,
        ApiCall.log (some [98]) 2])).1 = BOOT_RECORD_SUCCESS := by decide
  refine ⟨by decide, h, ?_⟩
  exact (C7_init_resets_state 2 true 48 9 _ h).1

/-- A `boot_record_init` call that does not return `Success` returned
`InvalidParams` from the argument guard, before the global or the buffer
is touched: the state is exactly unchanged. -/
theorem boot_record_init_failure_state (stage_id : Nat) (memory_addr : Bool)
    (size now : Nat) (cfg : boot_records_t)
    (h : (boot_record_init stage_id memory_addr size now cfg).1 ≠ BOOT_RECORD_SUCCESS) :
    (boot_record_init stage_id memory_addr size now cfg).1 =
      BOOT_RECORD_ERR_INVALID_PARAMS ∧
    (boot_record_init stage_id memory_addr size now cfg).2 = cfg := by
  have hstat := boot_record_init_status stage_id memory_addr size now cfg
  by_cases hg : memory_addr = false ∨ size < sizeof_stage + sizeof_profile
  · constructor
    · rw [hstat]; simp [hg]
    · unfold boot_record_init
      simp [hg]
  · exfalso
    apply h
    rw [hstat]
    simp [hg]

/-- A store at capacity (`record_count = possible_records`) is a fixed
point of every call that is not a successful init: a log call (null label,
or non-null label hitting the overflow check) and a failing init all leave
the global exactly as it was. -/
theorem full_store_fixed_point (cfg : boot_records_t)
    (stage : boot_stage_record_t) (c : ApiCall)
    (hrec : cfg.records = some stage)
    (hfull : cfg.possible_records ≤ stage.record_count)
    (hc : ∀ stage_id memory_addr size now, c = .init stage_id memory_addr size now →
      (boot_record_init stage_id memory_addr size now cfg).1 ≠ BOOT_RECORD_SUCCESS) :
    (api_step c cfg).2 = cfg := by
  cases c with
  | init stage_id memory_addr size now =>
    exact (boot_record_init_failure_state stage_id memory_addr size now cfg
      (hc stage_id memory_addr size now rfl)).2
  | log name now =>
    cases name with
    | none =>
      show (boot_record_log_profile none now cfg).2 = cfg
      rw [log_profile_invalid none now cfg (Or.inl rfl)]
    | some label =>
      show (boot_record_log_profile (some label) now cfg).2 = cfg
      unfold boot_record_log_profile
      rw [hrec]
      simp [hfull]

/-- On a full store, any non-null-label log call returns `Overflow` and
changes nothing. -/
theorem full_store_log_overflow (cfg : boot_records_t)
    (stage : boot_stage_record_t) (label : List Nat) (now : Nat)
    (hrec : cfg.records = some stage)
    (hfull : cfg.possible_records ≤ stage.record_count) :
    boot_record_log_profile (some label) now cfg = (BOOT_RECORD_ERR_OVERFLOW, cfg) := by
  unfold boot_record_log_profile
  rw [hrec]
  simp [hfull]

/-- Running any sequence with no successful init from a full store leaves
the store exactly as it was. -/
theorem full_store_run_fixed (cfg : boot_records_t) (stage : boot_stage_record_t)
    (cs : List ApiCall)
    (hrec : cfg.records = some stage)
    (hfull : cfg.possible_records ≤ stage.record_count)
    (hcs : no_successful_init_from cfg cs = true) :
    api_run_from cfg cs = cfg := by
  induction cs with
  | nil => rfl
  | cons c cs ih =>
    unfold no_successful_init_from at hcs
    rw [Bool.and_eq_true] at hcs
    obtain ⟨hc, hcs'⟩ := hcs
    have hfix : (api_step c cfg).2 = cfg := by
      apply full_store_fixed_point cfg stage c hrec hfull
      intro stage_id memory_addr size now hceq
      subst hceq
      simpa using of_decide_eq_true hc
    have : api_run_from cfg (c :: cs) = api_run_from (api_step c cfg).2 cs := by
      unfold api_run_from
      rw [List.foldl_cons]
    rw [this, hfix]
    exact ih (by rwa [hfix] at hcs')

/-- C3: on an Active store whose `record_count` equals
`possible_records`, `boot_record_log_profile` with a non-null label
returns `Overflow` and leaves the whole global (count, header, entries)
unchanged, and after any further calls containing no successful init it
still returns `Overflow` on the unchanged store — no eviction, wraparound
or overwrite. -/
theorem C3_overflow_permanent (cfg : boot_records_t)
    (stage : boot_stage_record_t) (label label2 : List Nat) (now now2 : Nat)
    (cs : List ApiCall)
    (hrec : cfg.records = some stage)
    (hfull : stage.record_count = cfg.possible_records)
    (hcs : no_successful_init_from cfg cs = true) :
    boot_record_log_profile (some label) now cfg = (BOOT_RECORD_ERR_OVERFLOW, cfg) ∧
    api_run_from cfg cs = cfg ∧
    boot_record_log_profile (some label2) now2 (api_run_from cfg cs) =
      (BOOT_RECORD_ERR_OVERFLOW, cfg) := by
  have hle : cfg.possible_records ≤ stage.record_count := Nat.le_of_eq hfull.symm
  have hrun := full_store_run_fixed cfg stage cs hrec hle hcs
  refine ⟨full_store_log_overflow cfg stage label now hrec hle, hrun, ?_⟩
  rw [hrun]
  exact full_store_log_overflow cfg stage label2 now2 hrec hle

/-- C3 witness: a capacity-1 store filled by one append; a second append
overflows and leaves the store unchanged, also after further calls with no
successful init in between. -/
theorem C3_overflow_permanent_witness :
    (full_demo_cfg.records = some full_demo_stage ∧
      full_demo_stage.record_count = full_demo_cfg.possible_records ∧
      no_successful_init_from full_demo_cfg
        [ApiCall.log (some [98]) 2, ApiCall.init 9 false 1024 3] = true) ∧
    boot_record_log_profile (some [98]) 2 full_demo_cfg =
      (BOOT_RECORD_ERR_OVERFLOW, full_demo_cfg) := by
  have h1 : full_demo_cfg.records = some full_demo_stage := by decide
  have h2 : full_demo_stage.record_count = full_demo_cfg.possible_records := by decide
  have h3 : no_successful_init_from full_demo_cfg
      [ApiCall.log (some [98]) 2, ApiCall.init 9 false 1024 3] = true := by decide
  have hmain := C3_overflow_permanent full_demo_cfg full_demo_stage [98] [99] 2 4
    [ApiCall.log (some [98]) 2, ApiCall.init 9 false 1024 3] h1 h2 h3
  exact ⟨⟨h1, h2, h3⟩, hmain.1⟩

/-- C5 counterexample: initialise an Active store (48-byte buffer at time
0), then make an init call fail with `InvalidParams` (null buffer).  The
claim says the store is now Uninitialized and the next
`boot_record_log_profile` must fail with `InvalidParams`; in fact the
failed init returned before touching the global, the store is still
Active, and the next log call returns `Success`. -/
theorem C5_failed_init_counterexample :
    (boot_record_init 1 false 1024 7
        (boot_record_init 1 true 48 0 gboot_records_config0).2).1 =
      BOOT_RECORD_ERR_INVALID_PARAMS ∧
    (boot_record_log_profile (some [120]) 9
        (boot_record_init 1 false 1024 7
          (boot_record_init 1 true 48 0 gboot_records_config0).2).2).1 =
      BOOT_RECORD_SUCCESS ∧
    (boot_record_log_profile (some [120]) 9
        (boot_record_init 1 false 1024 7
          (boot_record_init 1 true 48 0 gboot_records_config0).2).2).1 ≠
      BOOT_RECORD_ERR_INVALID_PARAMS := by
  refine ⟨by decide, by decide, by decide⟩

/-- C5 amended: every failed `boot_record_init` call fails with
`InvalidParams` (the `InsufficientMemory` branch being unreachable) and
leaves the global exactly as it was before the call — so a store that was
Uninitialized stays Uninitialized, and every subsequent
`boot_record_log_profile` then fails with `InvalidParams` until an init
succeeds, while a store that was Active before the failed call stays
Active with all its contents. -/
theorem C5_amended_failed_init_state (stage_id : Nat) (memory_addr : Bool)
    (size now : Nat) (cfg : boot_records_t)
    (h : (boot_record_init stage_id memory_addr size now cfg).1 ≠ BOOT_RECORD_SUCCESS) :
    (boot_record_init stage_id memory_addr size now cfg).1 =
      BOOT_RECORD_ERR_INVALID_PARAMS ∧
    (boot_record_init stage_id memory_addr size now cfg).2 = cfg ∧
    (cfg.records = none → ∀ name now2,
      boot_record_log_profile name now2
          (boot_record_init stage_id memory_addr size now cfg).2 =
        (BOOT_RECORD_ERR_INVALID_PARAMS, cfg)) := by
  obtain ⟨hstat, hstate⟩ :=
    boot_record_init_failure_state stage_id memory_addr size now cfg h
  refine ⟨hstat, hstate, ?_⟩
  intro hnone name now2
  rw [hstate]
  exact log_profile_invalid name now2 cfg (Or.inr hnone)

/-- C5 amended witness: a failed init (null pointer) on the
zero-initialised global leaves it unchanged and a following log fails. -/
theorem C5_amended_failed_init_state_witness :
    (boot_record_init 1 false 1024 0 gboot_records_config0).1 ≠
      BOOT_RECORD_SUCCESS ∧
    (boot_record_init 1 false 1024 0 gboot_records_config0).2 =
      gboot_records_config0 ∧
    boot_record_log_profile (some [120]) 2
        (boot_record_init 1 false 1024 0 gboot_records_config0).2 =
      (BOOT_RECORD_ERR_INVALID_PARAMS, gboot_records_config0) := by
  have h : (boot_record_init 1 false 1024 0 gboot_records_config0).1 ≠
      BOOT_RECORD_SUCCESS := by decide
  obtain ⟨-, h2, h3⟩ := C5_amended_failed_init_state 1 false 1024 0
    gboot_records_config0 h
  exact ⟨h, h2, h3 rfl (some [120]) 2⟩

/-- Both API operations preserve `store_inv`. -/
theorem store_inv_step (c : ApiCall) (cfg : boot_records_t)
    (hinv : store_inv cfg) : store_inv ((api_step c cfg).2) := by
  cases c with
  | init stage_id memory_addr size now =>
    show store_inv (boot_record_init stage_id memory_addr size now cfg).2
    unfold boot_record_init
    by_cases hg : memory_addr = false ∨ size < sizeof_stage + sizeof_profile
    · simpa [hg] using hinv
    · simp only [hg, if_false]
      by_cases hz : (size - sizeof_stage) / sizeof_profile = 0
      · simp only [hz, if_true]
        intro stage hstage
        simp only [Option.some_inj] at hstage
        subst hstage
        simp [zeroed_buffer, hz]
      · simp only [hz, if_false]
        intro stage hstage
        simp only [Option.some_inj] at hstage
        subst hstage
        simp [zeroed_buffer]
  | log name now =>
    show store_inv (boot_record_log_profile name now cfg).2
    cases name with
    | none => simpa [log_profile_invalid none now cfg (Or.inl rfl)] using hinv
    | some label =>
      cases hrec : cfg.records with
      | none => simpa [log_profile_invalid (some label) now cfg (Or.inr hrec)] using hinv
      | some stage =>
        unfold boot_record_log_profile
        rw [hrec]
        by_cases hle : cfg.possible_records ≤ stage.record_count
        · simpa [hle] using hinv
        · simp only [hle, if_false]
          intro stage1 hstage1
          simp only [Option.some_inj] at hstage1
          subst hstage1
          obtain ⟨-, hlen⟩ := hinv stage hrec
          refine ⟨?_, ?_⟩
          · show stage.record_count + 1 ≤ cfg.possible_records
            omega
          · show (stage.profiles.set stage.record_count
                { name := strncpy_name label, time := now }).length =
              cfg.possible_records
            rw [List.length_set]
            exact hlen

/-- Invariant `store_inv` holds along every run started in an invariant state. -/
theorem store_inv_run_from (cfg : boot_records_t) (cs : List ApiCall)
    (hinv : store_inv cfg) : store_inv (api_run_from cfg cs) := by
  induction cs generalizing cfg with
  | nil => exact hinv
  | cons c cs ih =>
    have hstep : api_run_from cfg (c :: cs) = api_run_from (api_step c cfg).2 cs := by
      unfold api_run_from
      rw [List.foldl_cons]
    rw [hstep]
    exact ih _ (store_inv_step c cfg hinv)

/-- C9: in every global state reachable by any sequence of
`boot_record_init` / `boot_record_log_profile` calls from the
zero-initialised global, a bound (Active) store satisfies
`record_count ≤ possible_records`. -/
theorem C9_record_count_le_capacity (cs : List ApiCall)
    (stage : boot_stage_record_t) (h : (api_run cs).records = some stage) :
    stage.record_count ≤ (api_run cs).possible_records := by
  have hinv0 : store_inv gboot_records_config0 := by
    intro stage hstage
    simp [gboot_records_config0] at hstage
  exact ((store_inv_run_from gboot_records_config0 cs hinv0) stage h).1

/-- C9 witness: the state reached by the two-call sequence of
`full_demo_cfg` holds a stage with `record_count = 1 ≤ 1`. -/
theorem C9_record_count_le_capacity_witness :
    (api_run [ApiCall.init 1 true 48 0, ApiCall.log (some [97]) 1]).records =
      some full_demo_stage ∧
    full_demo_stage.record_count ≤
      (api_run [ApiCall.init 1 true 48 0, ApiCall.log (some [97]) 1]).possible_records := by
  have h : (api_run [ApiCall.init 1 true 48 0, ApiCall.log (some [97]) 1]).records =
      some full_demo_stage := by decide
  exact ⟨h, C9_record_count_le_capacity
    [ApiCall.init 1 true 48 0, ApiCall.log (some [97]) 1] full_demo_stage h⟩
